import Mathlib

/-!
Shallow embedding of the Google Drive access layer
(`google_drive_integration.py`): credential authentication,
path navigation, and the per-format content codec used by
`read_file` / `write_file`, together with theorems settling the
frozen claims about the specification.

External libraries (google-auth, reportlab, pandas, python-pptx,
python-docx, PyPDF2) are modelled as oracles or abstract constructors
carrying exactly the data the source hands them; the Python standard
library pieces the control flow depends on (`os.path.splitext`,
`base64.b64decode` in its default lenient mode, `str.splitlines`,
`str.split`) are embedded faithfully.
-/

namespace GDrive

/-! ### Python stdlib models -/

/-- Index of the last occurrence of a character in a list, if any
(Python `str.rfind`, restricted to found/not-found plus the index). -/
def lastIdx : List Char → Char → Option Nat
  | [], _ => none
  | c :: rest, t =>
    match lastIdx rest t with
    | some i => some (i + 1)
    | none => if c = t then some 0 else none

/-- Python `os.path.splitext` (posix): split at the last dot that comes
after the last `/` and after at least one non-dot character of the base
name; otherwise the extension is empty. -/
def splitext (p : String) : String × String :=
  let cs := p.data
  match lastIdx cs '.' with
  | none => (p, "")
  | some di =>
    let fi : Nat := match lastIdx cs '/' with | none => 0 | some si => si + 1
    if fi ≤ di ∧ ((cs.drop fi).take (di - fi)).any (fun c => c ≠ '.') then
      (String.mk (cs.take di), String.mk (cs.drop di))
    else (p, "")

/-- Python `str.splitlines` for the line boundaries the source can meet
(`\n`, `\r`, `\r\n`): no trailing empty line for a trailing terminator. -/
def splitlinesAux : List Char → List Char → List (List Char)
  | [], acc => if acc.isEmpty then [] else [acc.reverse]
  | '\r' :: '\n' :: rest, acc => acc.reverse :: splitlinesAux rest []
  | '\r' :: rest, acc => acc.reverse :: splitlinesAux rest []
  | '\n' :: rest, acc => acc.reverse :: splitlinesAux rest []
  | c :: rest, acc => splitlinesAux rest (c :: acc)

def splitlines (s : String) : List String :=
  (splitlinesAux s.data []).map String.mk

/-- Python `str.lower` restricted to ASCII (the only case the
extension strings exercise). -/
def lowerAscii (s : String) : String :=
  String.mk (s.data.map (fun c =>
    if 'A' ≤ c ∧ c ≤ 'Z' then Char.ofNat (c.toNat + 32) else c))

/-- Standard base64 alphabet membership. -/
def isB64Char (c : Char) : Bool :=
  ('A' ≤ c ∧ c ≤ 'Z') ∨ ('a' ≤ c ∧ c ≤ 'z') ∨ ('0' ≤ c ∧ c ≤ '9') ∨ c = '+' ∨ c = '/'

/-- Value of a base64 alphabet character (six bits). -/
def b64Val (c : Char) : Nat :=
  if 'A' ≤ c ∧ c ≤ 'Z' then c.toNat - 'A'.toNat
  else if 'a' ≤ c ∧ c ≤ 'z' then c.toNat - 'a'.toNat + 26
  else if '0' ≤ c ∧ c ≤ '9' then c.toNat - '0'.toNat + 52
  else if c = '+' then 62
  else 63

/-- Reassemble bytes from a list of 6-bit values (a final group of 2 or 3
values yields 1 or 2 bytes). -/
def b64DecodeVals : List Nat → List Nat
  | a :: b :: c :: d :: rest =>
      (a * 4 + b / 16) :: ((b % 16) * 16 + c / 4) :: ((c % 4) * 64 + d)
        :: b64DecodeVals rest
  | [a, b] => [a * 4 + b / 16]
  | [a, b, c] => [a * 4 + b / 16, (b % 16) * 16 + c / 4]
  | _ => []

/-- Python `base64.b64decode` with its default lenient mode
(`validate=False`): characters outside the alphabet and `=` are
discarded before decoding; decoding fails only when the count of kept
characters breaks the padding rules. -/
def b64decode (s : String) : Option (List Nat) :=
  let kept := s.data.filter (fun c => isB64Char c ∨ c = '=')
  let dat := kept.filter (fun c => c ≠ '=')
  let pads := kept.length - dat.length
  if (dat.length + pads) % 4 = 0 ∧ dat.length % 4 ≠ 1 then
    some (b64DecodeVals (dat.map b64Val))
  else none

/-- Standard base64 alphabet character for a 6-bit value. -/
def b64Char (n : Nat) : Char :=
  if n < 26 then Char.ofNat ('A'.toNat + n)
  else if n < 52 then Char.ofNat ('a'.toNat + (n - 26))
  else if n < 62 then Char.ofNat ('0'.toNat + (n - 52))
  else if n = 62 then '+'
  else '/'

/-- Base64-encode a byte list (Python `base64.b64encode`), with padding. -/
def b64EncodeBytes : List Nat → List Char
  | x :: y :: z :: rest =>
      b64Char (x / 4) :: b64Char ((x % 4) * 16 + y / 16)
        :: b64Char ((y % 16) * 4 + z / 64) :: b64Char (z % 64)
        :: b64EncodeBytes rest
  | [x, y] => [b64Char (x / 4), b64Char ((x % 4) * 16 + y / 16),
               b64Char ((y % 16) * 4), '=']
  | [x] => [b64Char (x / 4), b64Char ((x % 4) * 16), '=', '=']
  | [] => []

def b64encode (bs : List Nat) : String := String.mk (b64EncodeBytes bs)

/-- UTF-8 encoding of one character as byte values. -/
def utf8EncodeCharNat (c : Char) : List Nat :=
  let n := c.toNat
  if n < 0x80 then [n]
  else if n < 0x800 then [0xC0 + n / 64, 0x80 + n % 64]
  else if n < 0x10000 then
    [0xE0 + n / 4096, 0x80 + (n / 64) % 64, 0x80 + n % 64]
  else
    [0xF0 + n / 262144, 0x80 + (n / 4096) % 64, 0x80 + (n / 64) % 64, 0x80 + n % 64]

/-- Python `str.encode("utf-8")` as a byte list. -/
def utf8Bytes (s : String) : List Nat := s.data.flatMap utf8EncodeCharNat

/-- Python `str.split(sep)` for a one-character separator (the source
splits only on `/` and `,`): keeps empty pieces, `""` gives `[""]`. -/
def pySplitAux (sep : Char) : List Char → List Char → List (List Char)
  | [], acc => [acc.reverse]
  | c :: rest, acc =>
    if c = sep then acc.reverse :: pySplitAux sep rest []
    else pySplitAux sep rest (c :: acc)

def pySplit (sep : Char) (s : String) : List String :=
  (pySplitAux sep s.data []).map String.mk

/-- Python `str.endswith` for one suffix. -/
def strEndsWith (s suffix : String) : Bool :=
  decide (suffix.data.length ≤ s.data.length) &&
    s.data.drop (s.data.length - suffix.data.length) == suffix.data

/-- Python `str.startswith` for one prefix. -/
def strStartsWith (s pre : String) : Bool :=
  s.data.take pre.data.length == pre.data

/-! ### Extension → MIME table and format dispatch
    (`EXTENSION_TO_MIME`, `_get_mime_type`, the `read_file` dispatch) -/

def EXTENSION_TO_MIME : List (String × String) :=
  [ (".txt", "text/plain"),
    (".csv", "text/csv"),
    (".json", "application/json"),
    (".pdf", "application/pdf"),
    (".jpg", "image/jpeg"),
    (".jpeg", "image/jpeg"),
    (".png", "image/png"),
    (".mp4", "video/mp4"),
    (".docx", "application/vnd.openxmlformats-officedocument.wordprocessingml.document"),
    (".xlsx", "application/vnd.openxmlformats-officedocument.spreadsheetml.sheet"),
    (".pptx", "application/vnd.openxmlformats-officedocument.presentationml.presentation"),
    (".py", "text/plain"),
    (".ipynb", "application/json") ]

/-- Embeds `_get_mime_type`: extension of the filename, lowercased,
looked up in `EXTENSION_TO_MIME`, defaulting to
`application/octet-stream`. -/
def get_mime_type (filename : String) : String :=
  (EXTENSION_TO_MIME.lookup (lowerAscii (splitext filename).2)).getD
    "application/octet-stream"

/-- Embeds `file_name_or_id.endswith(tuple(EXTENSION_TO_MIME.keys()))`. -/
def endsWithKnownExt (s : String) : Bool :=
  EXTENSION_TO_MIME.any (fun kv => strEndsWith s kv.1)

/-- The extension dispatch of `read_file` (lines 195-208), applied to the
lowercased extension of the resolved file name. -/
inductive ReadKind where
  | textLike | pdf | xlsx | pptx | binary
deriving DecidableEq, Repr

def readKind (filename : String) : ReadKind :=
  let ext := lowerAscii (splitext filename).2
  if ext = ".txt" ∨ ext = ".py" ∨ ext = ".csv" ∨ ext = ".json" ∨ ext = ".ipynb" then
    .textLike
  else if ext = ".pdf" then .pdf
  else if ext = ".xlsx" then .xlsx
  else if ext = ".pptx" then .pptx
  else .binary

/-! ### Content encoder of write_file (lines 221-279) -/

/-- The payload `write_file` uploads. Documents built by external
libraries (reportlab canvas, xlsxwriter via pandas, python-pptx,
python-docx) are abstract constructors carrying exactly the data the
source passes to the library; literal bytes (base64 passthrough or UTF-8
text) are `bytes`. -/
inductive Payload where
  | bytes (bs : List Nat)
  | pdfDoc (text : String)
  | xlsxDoc (rows : List (List String))
  | pptxDoc (lines : List String)
  | docxDoc (paras : List String)
deriving DecidableEq, Repr

/-- Embeds `_make_pdf_bytes`: a reportlab canvas, one page, Helvetica 12,
`drawString(100, 750, text)` — the whole content as one string. -/
def make_pdf_bytes (text : String) : Payload := .pdfDoc text

/-- The branch of `write_file` that turns `(name, content)` into the
upload payload, dispatching on `_get_mime_type(name)`. -/
def encodePayload (name : String) (content : String) : Payload :=
  let mime := get_mime_type name
  if mime = "application/pdf" then
    make_pdf_bytes content
  else if mime = "application/vnd.openxmlformats-officedocument.spreadsheetml.sheet" then
    match b64decode content with
    | some bs => .bytes bs
    | none => .xlsxDoc ((splitlines content).map (fun row => pySplit ',' row))
  else if mime = "application/vnd.openxmlformats-officedocument.presentationml.presentation" then
    match b64decode content with
    | some bs => .bytes bs
    | none => .pptxDoc (splitlines content)
  else if mime = "application/vnd.openxmlformats-officedocument.wordprocessingml.document" then
    match b64decode content with
    | some bs => .bytes bs
    | none => .docxDoc (splitlines content)
  else if strStartsWith mime "text/" ∨ mime = "application/json" then
    .bytes (utf8Bytes content)
  else
    match b64decode content with
    | some bs => .bytes bs
    | none => .bytes (utf8Bytes content)

/-! ### Remote service oracle and call-logging effect

The body of a public method issues remote calls that may raise; a raised
Python exception is an `Except.error` in the monad below, and the list
of strings records which remote endpoints were invoked (the request
trace). -/

/-- An entry as stored/returned by the remote service (the fields the
source requests plus the `parents`/`trashed` attributes its queries
filter on). -/
structure DriveFile where
  id : String
  name : String
  mimeType : String
  parent : String
  trashed : Bool
deriving DecidableEq, Repr

/-- The three query shapes the source builds: always `trashed=false`,
always a single parent-membership clause, optionally an exact name
clause, optionally a folder-only mimeType clause. -/
structure Query where
  parent : String
  name : Option String
  onlyFolders : Bool
deriving DecidableEq, Repr

/-- The remote Drive service as an oracle: every endpoint may fail. -/
structure Remote where
  createFile : String → Option String → Except String DriveFile
  listFiles : Query → Option Nat → Except String (List DriveFile)
  getMetadata : String → Except String DriveFile
  downloadFile : String → Except String (List Nat)
  uploadCreate : String → Option String → Payload → String → Except String DriveFile
  uploadUpdate : String → String → Payload → String → Except String DriveFile

/-- The external decoding libraries `read_file` dispatches to
(`bytes.decode`, PyPDF2 extraction, pandas `read_excel → to_csv`,
python-pptx shape texts), as oracles over the downloaded bytes. -/
structure ExtCodec where
  decodeText : String → List Nat → Except String String
  pdfExtract : List Nat → Except String String
  xlsxToCsv : List Nat → Except String String
  pptxExtract : List Nat → Except String String

/-- Computation with Python-exception semantics (`Except String`) plus a
trace of remote calls. -/
def DriveM (α : Type) : Type := List String → Except String α × List String

def DriveM.pure {α : Type} (a : α) : DriveM α := fun log => (.ok a, log)

def DriveM.bind {α β : Type} (x : DriveM α) (f : α → DriveM β) : DriveM β :=
  fun log =>
    match x log with
    | (.ok a, log2) => f a log2
    | (.error e, log2) => (.error e, log2)

instance : Monad DriveM where
  pure := DriveM.pure
  bind := DriveM.bind

/-- A `try/except` block. -/
def DriveM.catch {α : Type} (x : DriveM α) (h : String → DriveM α) : DriveM α :=
  fun log =>
    match x log with
    | (.error e, log2) => h e log2
    | (.ok a, log2) => (.ok a, log2)

/-- Issue one remote request: record it in the trace, then either return
its result or raise. -/
def callRemote {α : Type} (tag : String) (x : Except String α) : DriveM α :=
  fun log => (x, log ++ [tag])

/-- A local library call that may raise but is not a remote request. -/
def DriveM.liftExcept {α : Type} (x : Except String α) : DriveM α :=
  fun log => (x, log)

/-! ### Tagged result envelopes -/

inductive EnvData where
  | entry (f : DriveFile)
  | entries (fs : List DriveFile)
  | fileContent (meta : DriveFile) (content : String)
deriving DecidableEq, Repr

/-- Tagged envelope: status success with data, or status error with a
message. -/
inductive Env where
  | success (data : EnvData)
  | error (message : String)
deriving DecidableEq, Repr

/-- Run a public method: the final envelope plus the trace of remote
requests it issued. -/
def runDrive (x : DriveM Env) : Env × List String :=
  match x [] with
  | (.ok env, log) => (env, log)
  | (.error e, log) => (.error e, log)

/-- Python truthiness of the `parent_id` argument:
`if parent_id and parent_id != "root"` attaches an explicit parent. -/
def explicitParent : Option String → Option String
  | none => none
  | some p => if p ≠ "" ∧ p ≠ "root" then some p else none

/-- Embeds the Python truthiness default `folder_id or "root"`
(missing or empty means root). -/
def orRoot : Option String → String
  | none => "root"
  | some s => if s = "" then "root" else s

def folderMime : String := "application/vnd.google-apps.folder"

/-! ### The five public operations -/

def create_folder_m (svc : Option Remote) (name : String)
    (parent_id : Option String) : DriveM Env :=
  DriveM.catch
    (match svc with
     | none => pure (.error "Not authenticated")
     | some rm => do
        let folder ← callRemote "files.create"
          (rm.createFile name (explicitParent parent_id))
        pure (.success (.entry folder)))
    (fun e => pure (.error ("Failed to create folder: " ++ e)))

def create_folder (svc : Option Remote) (name : String)
    (parent_id : Option String) : Env × List String :=
  runDrive (create_folder_m svc name parent_id)

def list_directory_m (svc : Option Remote) (folder_id : Option String)
    (max_results : Nat) : DriveM Env :=
  DriveM.catch
    (match svc with
     | none => pure (.error "Not authenticated")
     | some rm => do
        let files ← callRemote "files.list"
          (rm.listFiles ⟨orRoot folder_id, none, false⟩ (some max_results))
        pure (.success (.entries files)))
    (fun e => pure (.error ("Failed to list directory: " ++ e)))

def list_directory (svc : Option Remote) (folder_id : Option String)
    (max_results : Nat) : Env × List String :=
  runDrive (list_directory_m svc folder_id max_results)

/-- The `for part in parts` descent loop of `navigate_path`: one
folder-restricted exact-name lookup per segment, early `none` on an
empty result, first match otherwise. -/
def resolveParts (rm : Remote) : String → List String → DriveM (Option String)
  | cur, [] => pure (some cur)
  | cur, part :: rest => do
      let items ← callRemote "files.list"
        (rm.listFiles ⟨cur, some part, true⟩ none)
      match items with
      | [] => pure none
      | item :: _ => resolveParts rm item.id rest

def navigate_path_m (svc : Option Remote) (path : String) : DriveM Env :=
  DriveM.catch
    (match svc with
     | none => pure (.error "Not authenticated")
     | some rm =>
        if path = "/" ∨ path = "" then
          list_directory_m svc (some "root") 100
        else do
          match ← resolveParts rm "root" ((pySplit '/' path).filter (fun p => p ≠ "")) with
          | none => pure (.error ("Path '" ++ path ++ "' not found"))
          | some fid => list_directory_m svc (some fid) 100)
    (fun e => pure (.error ("Failed to navigate path: " ++ e)))

def navigate_path (svc : Option Remote) (path : String) : Env × List String :=
  runDrive (navigate_path_m svc path)

/-- Embeds `_get_file_id_by_name`: one unrestricted exact-name lookup under
`parent_id`; its own `try/except` maps any failure to `None`. -/
def get_file_id_by_name (rm : Remote) (name : String) (parent_id : String) :
    DriveM (Option String) :=
  DriveM.catch
    (do
      let files ← callRemote "files.list"
        (rm.listFiles ⟨parent_id, some name, false⟩ none)
      match files with
      | [] => pure none
      | f :: _ => pure (some f.id))
    (fun _ => pure none)

def read_file_m (svc : Option Remote) (cdc : ExtCodec) (file_name_or_id : String)
    (encoding : String) (parent_id : String) : DriveM Env :=
  DriveM.catch
    (match svc with
     | none => pure (.error "Not authenticated")
     | some rm => do
        let fid? ←
          if 20 < file_name_or_id.length ∧ endsWithKnownExt file_name_or_id = false then
            pure (some file_name_or_id)
          else
            get_file_id_by_name rm file_name_or_id parent_id
        match fid? with
        | none => pure (.error ("File '" ++ file_name_or_id ++ "' not found"))
        | some fid => do
            let meta ← callRemote "files.get" (rm.getMetadata fid)
            let bytes ← callRemote "files.get_media" (rm.downloadFile fid)
            let content ←
              match readKind meta.name with
              | .textLike => DriveM.liftExcept (cdc.decodeText encoding bytes)
              | .pdf => DriveM.liftExcept (cdc.pdfExtract bytes)
              | .xlsx => DriveM.liftExcept (cdc.xlsxToCsv bytes)
              | .pptx => DriveM.liftExcept (cdc.pptxExtract bytes)
              | .binary => pure (b64encode bytes)
            pure (.success (.fileContent meta content)))
    (fun e => pure (.error ("Failed to read file: " ++ e)))

def read_file (svc : Option Remote) (cdc : ExtCodec) (file_name_or_id : String)
    (encoding : String) (parent_id : String) : Env × List String :=
  runDrive (read_file_m svc cdc file_name_or_id encoding parent_id)

def write_file_m (svc : Option Remote) (name content : String)
    (file_id : Option String) (parent_id : Option String) : DriveM Env :=
  DriveM.catch
    (match svc with
     | none => pure (.error "Not authenticated")
     | some rm =>
        let mime := get_mime_type name
        let payload := encodePayload name content
        -- `if file_id:` — Python truthiness, empty string means absent
        match (match file_id with
               | some fid => if fid = "" then none else some fid
               | none => none) with
        | some fid => do
            let updated ← callRemote "files.update"
              (rm.uploadUpdate fid name payload mime)
            pure (.success (.entry updated))
        | none => do
            let created ← callRemote "files.create"
              (rm.uploadCreate name (explicitParent parent_id) payload mime)
            pure (.success (.entry created)))
    (fun e => pure (.error ("Failed to write file: " ++ e)))

def write_file (svc : Option Remote) (name content : String)
    (file_id : Option String) (parent_id : Option String) : Env × List String :=
  runDrive (write_file_m svc name content file_id parent_id)

/-! ### authenticate (lines 42-66) -/

/-- The pickled credential record (`google.oauth2` credential, the
fields the source touches). -/
structure Credential where
  access_token : Option String
  refresh_token : Option String
  expiry : Nat
deriving DecidableEq, Repr

/-- google-auth `creds.expired` (per the spec contract: expiry passed). -/
def Credential.expired (c : Credential) (now : Nat) : Bool :=
  decide (c.expiry ≤ now)

/-- google-auth `creds.valid` / spec `is_valid`: access token present and
`now < expiry`. -/
def Credential.valid (c : Credential) (now : Nat) : Bool :=
  c.access_token.isSome && decide (now < c.expiry)

structure AuthResult where
  ok : Bool
  stored : Option Credential
  service : Bool
  refreshCalled : Bool
deriving DecidableEq, Repr

/-- Embeds `authenticate()`: `stored` is the content of the token file
(`none` when the file is absent), `rs` the refresh endpoint of the
authorization service
(new access token and expiry, or a raised rejection). The returned
record carries the boolean result, the token file afterwards, whether a
session (`self.service`) was bound, and whether refresh was invoked. -/
def authenticate (stored : Option Credential) (now : Nat)
    (rs : Credential → Except String (String × Nat)) : AuthResult :=
  match stored with
  | none => ⟨false, none, false, false⟩
  | some creds =>
    if creds.expired now && creds.refresh_token.isSome then
      match rs creds with
      | .error _ => ⟨false, some creds, false, true⟩
      | .ok (tok, exp) =>
        let creds2 : Credential := { creds with access_token := some tok, expiry := exp }
        if creds2.valid now then ⟨true, some creds2, true, true⟩
        else ⟨false, some creds2, false, true⟩
    else
      if creds.valid now then ⟨true, some creds, true, false⟩
      else ⟨false, some creds, false, false⟩

/-! ### A faultless in-memory remote, for the path-resolution claims -/

/-- Semantics of the query strings the source builds (exact name match,
optional folder-kind restriction, never trashed). -/
def matchesQuery (q : Query) (f : DriveFile) : Bool :=
  f.parent == q.parent &&
  (match q.name with | none => true | some n => f.name == n) &&
  (!q.onlyFolders || f.mimeType == folderMime) &&
  !f.trashed

/-- A remote backed by an in-memory list of entries. Endpoints the
path-resolution claims never exercise are inert stubs. -/
def Remote.ofDrive (d : List DriveFile) : Remote where
  createFile := fun name parent =>
    .ok ⟨"created", name, folderMime, parent.getD "root", false⟩
  listFiles := fun q pageSize =>
    .ok (match pageSize with
         | some n => (d.filter (matchesQuery q)).take n
         | none => d.filter (matchesQuery q))
  getMetadata := fun fid =>
    match d.find? (fun f => f.id == fid) with
    | some f => .ok f
    | none => .error "File not found"
  downloadFile := fun _ => .error "media not stored"
  uploadCreate := fun name parent _ mimeType =>
    .ok ⟨"created", name, mimeType, parent.getD "root", false⟩
  uploadUpdate := fun fid name _ mimeType =>
    .ok ⟨fid, name, mimeType, "root", false⟩

/-! ### Unfolding lemmas for the effect layer -/

theorem DriveM.bind_apply {α β : Type} (x : DriveM α) (f : α → DriveM β)
    (log : List String) :
    (x >>= f) log =
      match x log with
      | (.ok a, log2) => f a log2
      | (.error e, log2) => (.error e, log2) := rfl

theorem DriveM.monadPure_eq {α : Type} :
    (@Pure.pure DriveM _ α) = @DriveM.pure α := rfl

theorem DriveM.monadBind_eq {α β : Type} :
    (@Bind.bind DriveM _ α β) = @DriveM.bind α β := rfl

theorem DriveM.pure_apply {α : Type} (a : α) (log : List String) :
    DriveM.pure a log = (.ok a, log) := rfl

theorem DriveM.bind_apply' {α β : Type} (x : DriveM α) (f : α → DriveM β)
    (log : List String) :
    DriveM.bind x f log =
      match x log with
      | (.ok a, log2) => f a log2
      | (.error e, log2) => (.error e, log2) := rfl

theorem DriveM.catch_apply {α : Type} (x : DriveM α) (h : String → DriveM α)
    (log : List String) :
    DriveM.catch x h log =
      match x log with
      | (.error e, log2) => h e log2
      | (.ok a, log2) => (.ok a, log2) := rfl

theorem callRemote_apply {α : Type} (tag : String) (x : Except String α)
    (log : List String) : callRemote tag x log = (x, log ++ [tag]) := rfl

theorem DriveM.liftExcept_apply {α : Type} (x : Except String α)
    (log : List String) : DriveM.liftExcept x log = (x, log) := rfl

/-- A caught computation whose handler only wraps the message never
raises. -/
theorem DriveM.catch_ok {α : Type} (x : DriveM α) (f : String → α)
    (log : List String) :
    ∃ a log2, DriveM.catch x (fun e => pure (f e)) log = (.ok a, log2) := by
  unfold DriveM.catch
  rcases hx : x log with ⟨r, log2⟩
  cases r with
  | ok a => exact ⟨a, log2, rfl⟩
  | error e => exact ⟨f e, log2, rfl⟩

theorem DriveM.catch_of_ok {α : Type} {x : DriveM α} {h : String → DriveM α}
    {log log2 : List String} {a : α} (hx : x log = (.ok a, log2)) :
    DriveM.catch x h log = (.ok a, log2) := by
  unfold DriveM.catch
  rw [hx]

/-- Body of `list_directory`: the envelope it produces does not depend on
the incoming trace, and it never raises. -/
theorem list_directory_m_value (svc : Option Remote) (folder_id : Option String)
    (max_results : Nat) :
    ∃ env, ∀ log, ∃ log2,
      list_directory_m svc folder_id max_results log = (.ok env, log2) := by
  cases svc with
  | none => exact ⟨.error "Not authenticated", fun log => ⟨log, rfl⟩⟩
  | some rm =>
    cases h : rm.listFiles ⟨orRoot folder_id, none, false⟩ (some max_results) with
    | ok fs =>
      refine ⟨.success (.entries fs), fun log => ⟨log ++ ["files.list"], ?_⟩⟩
      unfold list_directory_m DriveM.catch
      simp only [DriveM.bind_apply, callRemote_apply, h]
      rfl
    | error e =>
      refine ⟨.error ("Failed to list directory: " ++ e), fun log => ⟨log ++ ["files.list"], ?_⟩⟩
      unfold list_directory_m DriveM.catch
      simp only [DriveM.bind_apply, callRemote_apply, h]
      rfl

/-- Description of path resolution as the claim states it, independent of
the monadic loop: for each segment, the children of the current folder
having exactly that name and folder kind; fail on zero matches, descend
into the first match otherwise. -/
def specResolve (d : List DriveFile) : String → List String → Option String
  | cur, [] => some cur
  | cur, seg :: rest =>
    match d.filter (fun f =>
        f.parent == cur && f.name == seg && f.mimeType == folderMime && !f.trashed) with
    | [] => none
    | f :: _ => specResolve d f.id rest

theorem matchesQuery_folder (cur seg : String) (f : DriveFile) :
    matchesQuery ⟨cur, some seg, true⟩ f
      = (f.parent == cur && f.name == seg && f.mimeType == folderMime && !f.trashed) := by
  simp [matchesQuery, Bool.and_assoc]

/-- The descent loop over the in-memory remote computes `specResolve`
and never raises. -/
theorem resolveParts_ofDrive (d : List DriveFile) (parts : List String)
    (cur : String) (log : List String) :
    ∃ log2, resolveParts (Remote.ofDrive d) cur parts log
      = (.ok (specResolve d cur parts), log2) := by
  induction parts generalizing cur log with
  | nil => exact ⟨log, rfl⟩
  | cons seg rest ih =>
    unfold resolveParts specResolve
    have hq : d.filter (matchesQuery ⟨cur, some seg, true⟩)
        = d.filter (fun f =>
            f.parent == cur && f.name == seg && f.mimeType == folderMime && !f.trashed) :=
      List.filter_congr (fun f _ => matchesQuery_folder cur seg f)
    simp only [DriveM.bind_apply, callRemote_apply, Remote.ofDrive, hq]
    cases hf : d.filter (fun f =>
        f.parent == cur && f.name == seg && f.mimeType == folderMime && !f.trashed) with
    | nil => exact ⟨log ++ ["files.list"], rfl⟩
    | cons f rest2 => exact ih f.id (log ++ ["files.list"])

/-! ### Claim theorems -/

/-- C6: `navigate_path("/")` and `navigate_path("")` both return exactly
the same result as `list_directory("root")` on the same state. -/
theorem navigate_path_root_eq_list_directory (svc : Option Remote) :
    navigate_path svc "/" = list_directory svc (some "root") 100 ∧
    navigate_path svc "" = list_directory svc (some "root") 100 := by
  have key : ∀ p : String, (p = "/" ∨ p = "") →
      navigate_path svc p = list_directory svc (some "root") 100 := by
    intro p hp
    cases svc with
    | none => rcases hp with h | h <;> subst h <;> rfl
    | some rm =>
      obtain ⟨env, hld⟩ := list_directory_m_value (some rm) (some "root") 100
      obtain ⟨log2, h2⟩ := hld []
      unfold navigate_path list_directory runDrive
      simp only [navigate_path_m]
      rw [if_pos hp, DriveM.catch_of_ok h2, h2]
  exact ⟨key "/" (Or.inl rfl), key "" (Or.inr rfl)⟩

/-- C8: with no bound session, every public operation returns the tagged
error `Not authenticated` and issues no remote request (empty trace). -/
theorem unauthenticated_short_circuit (cdc : ExtCodec)
    (name content path file_name_or_id encoding parent : String)
    (parent_id file_id folder_id : Option String) (max_results : Nat) :
    create_folder none name parent_id = (.error "Not authenticated", []) ∧
    list_directory none folder_id max_results = (.error "Not authenticated", []) ∧
    navigate_path none path = (.error "Not authenticated", []) ∧
    read_file none cdc file_name_or_id encoding parent = (.error "Not authenticated", []) ∧
    write_file none name content file_id parent_id = (.error "Not authenticated", []) :=
  ⟨rfl, rfl, rfl, rfl, rfl⟩

/-- C7: every public operation catches every failure of its remote calls
and codec calls: run on any oracle (whose every endpoint may raise) and
any incoming trace, the body never yields a raised exception, only a
tagged success/error envelope. -/
theorem public_ops_catch_all_failures (svc : Option Remote) (cdc : ExtCodec)
    (name content path file_name_or_id encoding parent : String)
    (parent_id file_id folder_id : Option String) (max_results : Nat)
    (log : List String) :
    (∃ env log2, create_folder_m svc name parent_id log = (.ok env, log2)) ∧
    (∃ env log2, list_directory_m svc folder_id max_results log = (.ok env, log2)) ∧
    (∃ env log2, navigate_path_m svc path log = (.ok env, log2)) ∧
    (∃ env log2, read_file_m svc cdc file_name_or_id encoding parent log = (.ok env, log2)) ∧
    (∃ env log2, write_file_m svc name content file_id parent_id log = (.ok env, log2)) := by
  refine ⟨?_, ?_, ?_, ?_, ?_⟩ <;> exact DriveM.catch_ok _ _ _

/-- C5: on a non-root path, `navigate_path` splits on `/`, discards empty
segments, descends from root by exact-name folder lookups taking the
first match, fails with a NotFound message naming the whole original
path when a segment has no match, and otherwise returns the listing of
the final folder. -/
theorem navigate_path_resolves (d : List DriveFile) (path : String)
    (hp : ¬(path = "/" ∨ path = "")) :
    (navigate_path (some (Remote.ofDrive d)) path).1 =
      match specResolve d "root" ((pySplit '/' path).filter (fun p => p ≠ "")) with
      | none => Env.error ("Path '" ++ path ++ "' not found")
      | some fid => (list_directory (some (Remote.ofDrive d)) (some fid) 100).1 := by
  obtain ⟨log2, hres⟩ :=
    resolveParts_ofDrive d ((pySplit '/' path).filter (fun p => p ≠ "")) "root" []
  unfold navigate_path runDrive
  simp only [navigate_path_m]
  rw [if_neg hp]
  cases hspec : specResolve d "root" ((pySplit '/' path).filter (fun p => p ≠ "")) with
  | none =>
    rw [hspec] at hres
    rw [DriveM.catch_of_ok (by simp only [DriveM.bind_apply, hres]; rfl)]
  | some fid =>
    rw [hspec] at hres
    obtain ⟨env, hld⟩ := list_directory_m_value (some (Remote.ofDrive d)) (some fid) 100
    obtain ⟨log3, h3⟩ := hld log2
    obtain ⟨log4, h4⟩ := hld []
    rw [DriveM.catch_of_ok (by simp only [DriveM.bind_apply, hres]; exact h3)]
    unfold list_directory runDrive
    simp [h4]

/-- Witness for C5: a drive with folder `A` under root but no `B` inside
it; navigating `A/B` yields NotFound naming the whole path. -/
theorem navigate_path_resolves_witness :
    (navigate_path
        (some (Remote.ofDrive [⟨"idA", "A", folderMime, "root", false⟩]))
        "A/B").1 = Env.error "Path 'A/B' not found" := by
  have h := navigate_path_resolves [⟨"idA", "A", folderMime, "root", false⟩]
    "A/B" (by decide)
  exact h.trans (by decide)

/-- Under a mime value starting with `text/`, none of the four document
branches of the encoder applies. -/
theorem mime_ne_of_text {m : String} (h : strStartsWith m "text/" = true) :
    m ≠ "application/pdf" ∧
    m ≠ "application/vnd.openxmlformats-officedocument.spreadsheetml.sheet" ∧
    m ≠ "application/vnd.openxmlformats-officedocument.presentationml.presentation" ∧
    m ≠ "application/vnd.openxmlformats-officedocument.wordprocessingml.document" := by
  refine ⟨?_, ?_, ?_, ?_⟩ <;> rintro rfl <;> exact absurd h (by decide)

/-- C1 (amended): the base64-passthrough-then-synthesize precedence
governs the spreadsheet, presentation, word-processing and unrecognized
kinds; the PDF encoder never attempts the base64 decode and always
synthesizes the one-page document from the content; text kinds encode
the content directly as UTF-8. -/
theorem encoder_precedence (name content : String) :
    (get_mime_type name = "application/pdf" →
      encodePayload name content = make_pdf_bytes content) ∧
    (get_mime_type name = "application/vnd.openxmlformats-officedocument.spreadsheetml.sheet" →
      encodePayload name content =
        match b64decode content with
        | some bs => Payload.bytes bs
        | none => Payload.xlsxDoc ((splitlines content).map (fun row => pySplit ',' row))) ∧
    (get_mime_type name = "application/vnd.openxmlformats-officedocument.presentationml.presentation" →
      encodePayload name content =
        match b64decode content with
        | some bs => Payload.bytes bs
        | none => Payload.pptxDoc (splitlines content)) ∧
    (get_mime_type name = "application/vnd.openxmlformats-officedocument.wordprocessingml.document" →
      encodePayload name content =
        match b64decode content with
        | some bs => Payload.bytes bs
        | none => Payload.docxDoc (splitlines content)) ∧
    (strStartsWith (get_mime_type name) "text/" = true ∨ get_mime_type name = "application/json" →
      encodePayload name content = Payload.bytes (utf8Bytes content)) ∧
    (get_mime_type name ≠ "application/pdf" →
     get_mime_type name ≠ "application/vnd.openxmlformats-officedocument.spreadsheetml.sheet" →
     get_mime_type name ≠ "application/vnd.openxmlformats-officedocument.presentationml.presentation" →
     get_mime_type name ≠ "application/vnd.openxmlformats-officedocument.wordprocessingml.document" →
     strStartsWith (get_mime_type name) "text/" = false →
     get_mime_type name ≠ "application/json" →
      encodePayload name content =
        match b64decode content with
        | some bs => Payload.bytes bs
        | none => Payload.bytes (utf8Bytes content)) := by
  refine ⟨?_, ?_, ?_, ?_, ?_, ?_⟩
  · intro h
    simp only [encodePayload]
    rw [h, if_pos rfl]
  · intro h
    simp only [encodePayload]
    rw [h, if_neg (by decide), if_pos rfl]
  · intro h
    simp only [encodePayload]
    rw [h, if_neg (by decide), if_neg (by decide), if_pos rfl]
  · intro h
    simp only [encodePayload]
    rw [h, if_neg (by decide), if_neg (by decide), if_neg (by decide), if_pos rfl]
  · intro h
    simp only [encodePayload]
    rcases h with h | h
    · obtain ⟨h1, h2, h3, h4⟩ := mime_ne_of_text h
      rw [if_neg h1, if_neg h2, if_neg h3, if_neg h4, if_pos (Or.inl h)]
    · rw [h, if_neg (by decide), if_neg (by decide), if_neg (by decide),
        if_neg (by decide), if_pos (Or.inr rfl)]
  · intro h1 h2 h3 h4 h5 h6
    simp only [encodePayload]
    rw [if_neg h1, if_neg h2, if_neg h3, if_neg h4,
      if_neg (not_or.mpr ⟨by simp [h5], h6⟩)]

/-- Counterexample to C1 as stated: valid-base64 content destined for a
PDF is not decoded and passed through; `write_file` synthesizes the
one-page PDF from the literal string instead. -/
theorem encoder_precedence_counterexample :
    b64decode "aGVsbG8=" = some [104, 101, 108, 108, 111] ∧
    encodePayload "report.pdf" "aGVsbG8=" = Payload.pdfDoc "aGVsbG8=" ∧
    Payload.pdfDoc "aGVsbG8=" ≠ Payload.bytes [104, 101, 108, 108, 111] := by
  decide

/-- Witness for C1 (amended), one concrete input per branch. -/
theorem encoder_precedence_witness :
    encodePayload "report.pdf" "aGVsbG8=" = make_pdf_bytes "aGVsbG8=" ∧
    encodePayload "data.xlsx" "Q3 Summary" = Payload.xlsxDoc [["Q3 Summary"]] ∧
    encodePayload "deck.pptx" "Q3 Summary" = Payload.pptxDoc ["Q3 Summary"] ∧
    encodePayload "doc.docx" "Q3 Summary" = Payload.docxDoc ["Q3 Summary"] ∧
    encodePayload "notes.txt" "hello" = Payload.bytes (utf8Bytes "hello") ∧
    encodePayload "img.png" "Q3 Summary" = Payload.bytes (utf8Bytes "Q3 Summary") := by
  refine ⟨(encoder_precedence "report.pdf" "aGVsbG8=").1 (by decide), ?_, ?_, ?_, ?_, ?_⟩
  · exact ((encoder_precedence "data.xlsx" "Q3 Summary").2.1 (by decide)).trans (by decide)
  · exact ((encoder_precedence "deck.pptx" "Q3 Summary").2.2.1 (by decide)).trans (by decide)
  · exact ((encoder_precedence "doc.docx" "Q3 Summary").2.2.2.1 (by decide)).trans (by decide)
  · exact (encoder_precedence "notes.txt" "hello").2.2.2.2.1 (Or.inl (by decide))
  · exact ((encoder_precedence "img.png" "Q3 Summary").2.2.2.2.2 (by decide) (by decide)
      (by decide) (by decide) (by decide) (by decide)).trans (by decide)

/-- C2: at the input of the spec scenario, the lenient Python base64 decoder
accepts `"a,b\n1,2"` (discarding `,` and the newline leaves `ab12`), so
`write_file` takes the passthrough branch and uploads the three bytes
`0x69 0xBD 0x76` — the fallback two-row spreadsheet is never built. -/
theorem xlsx_scenario_takes_passthrough :
    b64decode "a,b\n1,2" = some [105, 189, 118] ∧
    encodePayload "data.xlsx" "a,b\n1,2" = Payload.bytes [105, 189, 118] ∧
    Payload.bytes [105, 189, 118] ≠
      Payload.xlsxDoc ((splitlines "a,b\n1,2").map (fun row => pySplit ',' row)) := by
  decide

/-- Counterexample to C3 as stated: a still-valid credential with no
refresh token makes `authenticate()` return true, not false. -/
theorem authenticate_no_refresh_token_counterexample :
    (authenticate (some ⟨some "tok", none, 10⟩) 0
      (fun _ => Except.error "rejected")).ok = true := by
  decide

/-- C3 (amended): for every stored credential that fails the validity
check, if it has no refresh token or the refresh endpoint rejects it,
`authenticate()` returns false, binds no session, and leaves the
persisted record unchanged. -/
theorem authenticate_unrefreshable_invalid (c : Credential) (now : Nat)
    (rs : Credential → Except String (String × Nat))
    (hinvalid : c.valid now = false)
    (hfail : c.refresh_token = none ∨ ∃ e, rs c = Except.error e) :
    (authenticate (some c) now rs).ok = false ∧
    (authenticate (some c) now rs).stored = some c ∧
    (authenticate (some c) now rs).service = false := by
  unfold authenticate
  rcases hfail with hnone | ⟨e, he⟩
  · have hrt : c.refresh_token.isSome = false := by rw [hnone]; rfl
    simp [hrt, hinvalid]
  · by_cases hexp : (c.expired now && c.refresh_token.isSome) = true
    · simp [hexp, he]
    · simp [hexp, hinvalid]

/-- Witness for C3 (amended): an empty expired credential without
refresh token. -/
theorem authenticate_unrefreshable_invalid_witness :
    (authenticate (some ⟨none, none, 0⟩) 5 (fun _ => Except.error "revoked")).ok = false ∧
    (authenticate (some ⟨none, none, 0⟩) 5 (fun _ => Except.error "revoked")).stored
      = some ⟨none, none, 0⟩ ∧
    (authenticate (some ⟨none, none, 0⟩) 5 (fun _ => Except.error "revoked")).service = false :=
  authenticate_unrefreshable_invalid ⟨none, none, 0⟩ 5 (fun _ => Except.error "revoked")
    (by decide) (Or.inl rfl)

/-- C4: a valid, unexpired credential authenticates successfully, binds
a session, and never invokes the refresh endpoint. -/
theorem authenticate_valid_skips_refresh (c : Credential) (now : Nat)
    (rs : Credential → Except String (String × Nat))
    (htok : c.access_token.isSome = true) (hexp : now < c.expiry) :
    authenticate (some c) now rs = ⟨true, some c, true, false⟩ := by
  have hexpired : c.expired now = false := by
    unfold Credential.expired
    simp [Nat.not_le.mpr hexp]
  have hvalid : c.valid now = true := by
    unfold Credential.valid
    simp [htok, hexp]
  unfold authenticate
  simp [hexpired, hvalid]

/-- Witness for C4. -/
theorem authenticate_valid_skips_refresh_witness :
    authenticate (some ⟨some "tok", some "ref", 100⟩) 42 (fun _ => Except.error "boom")
      = ⟨true, some ⟨some "tok", some "ref", 100⟩, true, false⟩ :=
  authenticate_valid_skips_refresh ⟨some "tok", some "ref", 100⟩ 42
    (fun _ => Except.error "boom") (by decide) (by decide)

/-- C9: a downloaded file whose resolved name has extension `.docx`
falls through the read dispatch to the opaque-binary case and comes back
as the base64 text of the raw bytes. -/
theorem read_docx_returns_base64 (rm : Remote) (cdc : ExtCodec)
    (fid encoding parent : String) (meta : DriveFile) (bytes : List Nat)
    (hlen : 20 < fid.length) (hext : endsWithKnownExt fid = false)
    (hmeta : rm.getMetadata fid = .ok meta)
    (hbytes : rm.downloadFile fid = .ok bytes)
    (hdocx : lowerAscii (splitext meta.name).2 = ".docx") :
    (read_file (some rm) cdc fid encoding parent).1
      = Env.success (.fileContent meta (b64encode bytes)) := by
  have hkind : readKind meta.name = .binary := by
    simp only [readKind]
    rw [hdocx]
    decide
  unfold read_file runDrive
  simp only [read_file_m]
  rw [if_pos ⟨hlen, hext⟩]
  simp only [DriveM.catch_apply, DriveM.bind_apply, DriveM.monadPure_eq,
    DriveM.monadBind_eq, DriveM.pure_apply, DriveM.bind_apply',
    callRemote_apply, hmeta, hbytes, hkind]

/-- Witness for C9: a one-file remote holding `report.docx` with bytes
`[1, 2, 3]`; reading by 21-character id returns base64 `AQID`. -/
theorem read_docx_returns_base64_witness :
    (read_file
        (some { createFile := fun _ _ => Except.error "stub",
                listFiles := fun _ _ => Except.ok [],
                getMetadata := fun _ =>
                  Except.ok ⟨"f1", "report.docx", "application/octet-stream", "root", false⟩,
                downloadFile := fun _ => Except.ok [1, 2, 3],
                uploadCreate := fun _ _ _ _ => Except.error "stub",
                uploadUpdate := fun _ _ _ _ => Except.error "stub" })
        ⟨fun _ _ => Except.ok "", fun _ => Except.ok "",
         fun _ => Except.ok "", fun _ => Except.ok ""⟩
        "ABCDEFGHIJKLMNOPQRSTU" "utf-8" "root").1
      = Env.success
          (.fileContent ⟨"f1", "report.docx", "application/octet-stream", "root", false⟩
            "AQID") := by
  have h := read_docx_returns_base64
    { createFile := fun _ _ => Except.error "stub",
      listFiles := fun _ _ => Except.ok [],
      getMetadata := fun _ =>
        Except.ok ⟨"f1", "report.docx", "application/octet-stream", "root", false⟩,
      downloadFile := fun _ => Except.ok [1, 2, 3],
      uploadCreate := fun _ _ _ _ => Except.error "stub",
      uploadUpdate := fun _ _ _ _ => Except.error "stub" }
    ⟨fun _ _ => Except.ok "", fun _ => Except.ok "",
     fun _ => Except.ok "", fun _ => Except.ok ""⟩
    "ABCDEFGHIJKLMNOPQRSTU" "utf-8" "root"
    ⟨"f1", "report.docx", "application/octet-stream", "root", false⟩ [1, 2, 3]
    (by decide) (by decide) rfl rfl (by decide)
  exact h.trans (by decide)

/-- C10: format-kind determination lowercases the extension on both the
write path (`_get_mime_type`) and the read dispatch, so two names whose
extensions agree up to letter case get the same mime type, the same read
dispatch, and identical encoded payloads. -/
theorem extension_case_insensitive (n1 n2 s1 s2 e1 e2 content : String)
    (h1 : splitext n1 = (s1, e1)) (h2 : splitext n2 = (s2, e2))
    (hcase : lowerAscii e1 = lowerAscii e2) :
    get_mime_type n1 = get_mime_type n2 ∧
    readKind n1 = readKind n2 ∧
    encodePayload n1 content = encodePayload n2 content := by
  have q1 : (splitext n1).2 = e1 := by rw [h1]
  have q2 : (splitext n2).2 = e2 := by rw [h2]
  have hm : get_mime_type n1 = get_mime_type n2 := by
    unfold get_mime_type
    rw [q1, q2, hcase]
  refine ⟨hm, ?_, ?_⟩
  · simp only [readKind]
    rw [q1, q2, hcase]
  · simp only [encodePayload]
    rw [hm]

/-- Witness for C10: `NOTES.TXT` and `notes.txt`. -/
theorem extension_case_insensitive_witness :
    get_mime_type "NOTES.TXT" = get_mime_type "notes.txt" ∧
    readKind "NOTES.TXT" = readKind "notes.txt" ∧
    encodePayload "NOTES.TXT" "hello" = encodePayload "notes.txt" "hello" :=
  extension_case_insensitive "NOTES.TXT" "notes.txt" "NOTES" "notes" ".TXT" ".txt"
    "hello" (by decide) (by decide) (by decide)

example : get_mime_type "notes.txt" = "text/plain" := by decide
example : get_mime_type "NOTES.TXT" = "text/plain" := by decide
example : b64decode "a,b\n1,2" = some [105, 189, 118] := by decide
example : b64decode "Q3 Summary" = none := by decide
example : b64decode "aGVsbG8=" = some [104, 101, 108, 108, 111] := by decide
example : b64encode [1, 2, 3] = "AQID" := by decide
example : splitlines "a,b\n1,2" = ["a,b", "1,2"] := by decide
example : splitext "archive.tar.gz" = ("archive.tar", ".gz") := by decide
example : splitext ".bashrc" = (".bashrc", "") := by decide

end GDrive
